import Mathlib

/-!
Verification of the theme resolution and synchronization protocol of the
dark-mode repository (bootstrap resolver, getThemeScript, ThemeProvider
variants).  JavaScript nullable strings are modelled as `Option String`
(`none` = JS `null`), JS truthiness of such a value as "some non-empty
string", and throwing code as `Except Unit`.
-/

namespace DarkMode

/-- JS truthiness of a nullable string: `null` and the empty string are falsy,
every other string is truthy. -/
def truthy : Option String → Bool
  | none => false
  | some s => !(s == "")

/-- JS `a || b` where `a` is a nullable string and `b` is a plain string:
returns `a`'s string if `a` is truthy, otherwise `b`. -/
def jsOrStr (a : Option String) (b : String) : String :=
  match a with
  | none => b
  | some s => if s == "" then b else s

/-- The theme expression of src/utils/themeInitializer.js lines 4-5:
`localStorage.getItem('theme') || (window.matchMedia('(prefers-color-scheme: dark)').matches ? 'dark' : 'light')`. -/
def themeInitializerTheme (stored : Option String) (prefersDark : Bool) : String :=
  jsOrStr stored (if prefersDark then "dark" else "light")

/-- The theme computation inside the script text returned by
src/utils/getThemeScript.js lines 4-6: it binds `storedTheme` and
`prefersDark` eagerly, then computes `storedTheme || (prefersDark ? 'dark' : 'light')`. -/
def getThemeScriptTheme (stored : Option String) (prefersDark : Bool) : String :=
  let storedTheme := stored
  let pd := prefersDark
  jsOrStr storedTheme (if pd then "dark" else "light")

/-- Ambient browser state seen by the bootstrap resolver: the result of
`localStorage.getItem('theme')` (`Except.error` models the get throwing,
e.g. storage disabled), the system preference signal, and
`document.documentElement` (`none` = root missing; otherwise its current
`data-theme` attribute, `none` = attribute absent). -/
structure BootEnv where
  storageGet : Except Unit (Option String)
  prefersDark : Bool
  root : Option (Option String)
  deriving Repr

/-- The IIFE of src/utils/themeInitializer.js lines 3-8 (identical logic is
emitted by getThemeScript).  It has no try/catch: if `getItem` throws the
exception propagates before anything else runs, and if the document root is
missing, `setAttribute` on it throws; on success it stamps the resolved theme
onto the root's `data-theme` attribute. -/
def themeInitializer (env : BootEnv) : Except Unit BootEnv :=
  match env.storageGet with
  | Except.error e => Except.error e
  | Except.ok stored =>
    let theme := jsOrStr stored (if env.prefersDark then "dark" else "light")
    match env.root with
    | none => Except.error ()
    | some _ => Except.ok { env with root := some (some theme) }

/-- The DOM effect of the script text of src/utils/getThemeScript.js lines 3-8:
same reads and same `setAttribute`, with `prefersDark` read eagerly before the
`||`. -/
def getThemeScriptRun (env : BootEnv) : Except Unit BootEnv :=
  match env.storageGet with
  | Except.error e => Except.error e
  | Except.ok stored =>
    let pd := env.prefersDark
    let theme := jsOrStr stored (if pd then "dark" else "light")
    match env.root with
    | none => Except.error ()
    | some _ => Except.ok { env with root := some (some theme) }

/-- The state of the page after invoking the bootstrap resolver: on a thrown
exception the page state is unchanged (JavaScript aborts the IIFE before the
attribute write); on success the new state. -/
def runThemeInitializer (env : BootEnv) : BootEnv :=
  match themeInitializer env with
  | Except.ok e => e
  | Except.error _ => env

/-- What the `window` global offers when it exists: `localStorage.getItem('theme')`
and `window.matchMedia('(prefers-color-scheme: dark)').matches`. -/
structure WindowEnv where
  storedTheme : Option String
  prefersDark : Bool
  deriving Repr, DecidableEq

/-- The `useState` initializer of the ThemeProvider in src/unnamed/part_001
lines 9-14: if `typeof window !== 'undefined'` it returns
`localStorage.getItem('theme') || (matchMedia dark ? themes.dark : themes.light)`,
otherwise it returns `themes.light`. -/
def useStateInitPart001 : Option WindowEnv → String
  | none => "light"
  | some w => jsOrStr w.storedTheme (if w.prefersDark then "dark" else "light")

/-- The `useState` initializer of the ThemeProvider in src/unnamed/part_002
lines 10-13: `(typeof window !== 'undefined' && localStorage.getItem('theme')) ||
(window.matchMedia('(prefers-color-scheme: dark)').matches ? themes.dark : themes.light)`.
When `window` is undefined the left operand of `||` is `false`, so the right
operand is evaluated and dereferences the undefined `window`, throwing a
ReferenceError (modelled as `Except.error`). -/
def useStateInitPart002 : Option WindowEnv → Except Unit String
  | none => Except.error ()
  | some w => Except.ok (jsOrStr w.storedTheme (if w.prefersDark then "dark" else "light"))

/-- The observable state of a mounted runtime holder: the in-memory `theme`
value, the document root's `data-theme` attribute (`none` = absent), the
persisted store's value under the key `theme` (`none` = absent), and the
system preference signal. -/
structure CtxState where
  theme : String
  attr : Option String
  store : Option String
  prefersDark : Bool
  deriving Repr, DecidableEq

/-- `toggleTheme` of src/unnamed/part_002 lines 15-20 (identical in
src/unnamed/part_001 lines 26-31): compute
`theme === themes.light ? themes.dark : themes.light`, `setTheme(newTheme)`,
set the root's `data-theme` attribute, and `localStorage.setItem('theme', newTheme)`. -/
def toggleTheme (s : CtxState) : CtxState :=
  let newTheme := if s.theme == "light" then "dark" else "light"
  { s with theme := newTheme, attr := some newTheme, store := some newTheme }

/-- `toggleTheme` of src/context/ThemeContext.js lines 21-26: compute the
opposite theme, `setTheme(newTheme)`, set the root attribute, then
`setTheme(newTheme)` a second time.  This variant contains no
`localStorage.setItem` call, so the persisted store is left untouched. -/
def toggleThemeCtx (s : CtxState) : CtxState :=
  let newTheme := if s.theme == "light" then "dark" else "light"
  { s with theme := newTheme, attr := some newTheme }

/-- The `useEffect` of src/unnamed/part_002 lines 22-24, whose dependency list
is `[theme]`: it re-stamps the root's `data-theme` attribute to the in-memory
value, unconditionally, on mount and after every change of `theme`. -/
def reconcileEffect (s : CtxState) : CtxState :=
  { s with attr := some s.theme }

/-- One post-mount transition of the part_002 holder: a consumer invokes
`toggleTheme`, and React then re-runs the `[theme]` effect because the
in-memory value changed. -/
def mountedStep (s : CtxState) : CtxState :=
  reconcileEffect (toggleTheme s)

/-- `getInitialTheme` of src/context/ThemeContext.js lines 12-18:
`storedTheme` if truthy, else the system preference fallback. -/
def getInitialTheme (s : CtxState) : String :=
  jsOrStr s.store (if s.prefersDark then "dark" else "light")

/-- The mount `useEffect` of src/context/ThemeContext.js lines 28-35
(dependency list `[]`, window present): compute `getInitialTheme()`,
`setTheme` it, stamp the root attribute, and write it to
`localStorage.setItem('theme', initialTheme)`. -/
def mountEffectCtx (s : CtxState) : CtxState :=
  let initialTheme := getInitialTheme s
  { s with theme := initialTheme, attr := some initialTheme, store := some initialTheme }

/-- The resolved theme is never the empty string: a truthy stored value is
non-empty by definition of truthiness, and both fallbacks are non-empty. -/
theorem jsOrStr_ne_empty (a : Option String) (b : String) (hb : b ≠ "") :
    jsOrStr a b ≠ "" := by
  cases a with
  | none => simpa [jsOrStr] using hb
  | some s =>
    by_cases h : s == ""
    · simpa [jsOrStr, h] using hb
    · simp only [jsOrStr, h, if_neg]
      simpa using h

/-- The system preference fallback string is non-empty for either preference. -/
theorem fallback_ne_empty (pd : Bool) : (if pd then "dark" else "light") ≠ "" := by
  cases pd <;> decide

/-- A non-empty persisted value makes resolution ignore the system preference. -/
theorem themeInitializerTheme_of_ne_empty (v : String) (hv : v ≠ "") (pd : Bool) :
    themeInitializerTheme (some v) pd = v := by
  simp [themeInitializerTheme, jsOrStr, hv]

/-- C1 fails as stated: the persisted value "blue" is neither of the two valid
values, yet with a prefers-light system the shared resolution returns "blue"
verbatim instead of falling through to "light". -/
theorem claim1_counterexample :
    themeInitializerTheme (some "blue") false = "blue" ∧ ("blue" : String) ≠ "light" := by
  exact ⟨by decide, by decide⟩

/-- C1 (amended): resolution returns the persisted value whenever it is a
non-empty string, valid or not; only an absent or empty persisted value falls
through to the system preference ("dark" iff the system prefers dark, else
"light").  The bootstrap script and the part_002 runtime initializer (browser
path) agree on this. -/
theorem claim1_amended (s : String) (h : s ≠ "") :
    (∀ pd : Bool, themeInitializerTheme (some s) pd = s) ∧
    themeInitializerTheme none true = "dark" ∧
    themeInitializerTheme none false = "light" ∧
    themeInitializerTheme (some "") true = "dark" ∧
    themeInitializerTheme (some "") false = "light" ∧
    (∀ pd : Bool, useStateInitPart002 (some ⟨some s, pd⟩) = Except.ok s) ∧
    useStateInitPart002 (some ⟨none, true⟩) = Except.ok "dark" ∧
    useStateInitPart002 (some ⟨none, false⟩) = Except.ok "light" := by
  refine ⟨fun pd => themeInitializerTheme_of_ne_empty s h pd, rfl, rfl, rfl, rfl,
    fun pd => ?_, rfl, rfl⟩
  simp [useStateInitPart002, jsOrStr, h]

/-- C1 amended claim evaluated at the concrete persisted value "blue" with a
prefers-light system. -/
theorem claim1_witness :
    themeInitializerTheme (some "blue") false = "blue" ∧
    useStateInitPart002 (some ⟨some "blue", false⟩) = Except.ok "blue" := by
  have h := claim1_amended "blue" (by decide)
  exact ⟨h.1 false, h.2.2.2.2.2.1 false⟩

/-- C2: on the ThemeContext.js variant, one toggle from in-memory "light"
(store holding "light") updates memory and the root attribute to "dark" but
leaves the persisted store at "light" — the store does not equal the new
in-memory theme, contradicting the claim; the part_001/part_002 variant does
write "dark" to the store, matching the claim and the spec. -/
theorem claim2_code_eval :
    (toggleThemeCtx ⟨"light", some "light", some "light", false⟩).theme = "dark" ∧
    (toggleThemeCtx ⟨"light", some "light", some "light", false⟩).attr = some "dark" ∧
    (toggleThemeCtx ⟨"light", some "light", some "light", false⟩).store = some "light" ∧
    (toggleTheme ⟨"light", some "light", some "light", false⟩).store = some "dark" := by
  exact ⟨by decide, by decide, by decide, by decide⟩

/-- C3: the part_002 useState initializer throws (ReferenceError on
`window.matchMedia`) when `window` is undefined instead of returning "light";
the part_001 initializer returns "light" there, as the claim requires. -/
theorem claim3_code_eval :
    useStateInitPart002 none = Except.error () ∧ useStateInitPart001 none = "light" :=
  ⟨rfl, rfl⟩

/-- C4 fails as stated: when `localStorage.getItem` throws (prefers-dark
system, root present), the bootstrap resolver propagates the exception rather
than no-opping or falling through to the system preference; likewise a missing
document root makes `setAttribute` throw. -/
theorem claim4_counterexample :
    themeInitializer ⟨Except.error (), true, some none⟩ = Except.error () ∧
    (∀ e : BootEnv, themeInitializer ⟨Except.error (), true, some none⟩ ≠ Except.ok e) ∧
    themeInitializer ⟨Except.ok none, true, none⟩ = Except.error () := by
  refine ⟨rfl, ?_, rfl⟩
  intro e he
  exact Except.noConfusion he

/-- C4 (amended): if the store's get throws or the document root is missing,
the bootstrap resolver propagates the exception and the page state (in
particular the root attribute) is left unchanged; resolution does not fall
through to the system preference. -/
theorem claim4_amended (env : BootEnv)
    (h : env.storageGet = Except.error () ∨ env.root = none) :
    themeInitializer env = Except.error () ∧ runThemeInitializer env = env := by
  have hmain : themeInitializer env = Except.error () := by
    rcases h with h | h
    · simp [themeInitializer, h]
    · rcases hg : env.storageGet with e | stored
      · cases e
        simp [themeInitializer, hg]
      · simp [themeInitializer, hg, h]
  exact ⟨hmain, by simp [runThemeInitializer, hmain]⟩

/-- C4 amended claim evaluated at a concrete environment whose storage get
throws. -/
theorem claim4_witness :
    themeInitializer ⟨Except.error (), false, some none⟩ = Except.error () ∧
    runThemeInitializer ⟨Except.error (), false, some none⟩ =
      ⟨Except.error (), false, some none⟩ :=
  claim4_amended ⟨Except.error (), false, some none⟩ (Or.inl rfl)

/-- C5 fails as stated: from in-memory "light" with root attribute "purple"
(externally changed), two toggles leave the attribute at "light", not at its
original "purple"; and from an in-memory value "blue" outside the two themes,
two toggles leave memory at "dark", not at "blue". -/
theorem claim5_counterexample :
    (toggleTheme (toggleTheme ⟨"light", some "purple", none, false⟩)).attr ≠
      (CtxState.mk "light" (some "purple") none false).attr ∧
    (toggleTheme (toggleTheme ⟨"blue", some "blue", some "blue", false⟩)).theme ≠
      (CtxState.mk "blue" (some "blue") (some "blue") false).theme := by
  exact ⟨by decide, by decide⟩

/-- C5 (amended): toggle is an involution on states where the in-memory theme
is one of the two valid values and the root attribute equals it: two toggles
return both the in-memory value and the attribute to their original values. -/
theorem claim5_amended (s : CtxState)
    (h1 : s.theme = "light" ∨ s.theme = "dark") (h2 : s.attr = some s.theme) :
    (toggleTheme (toggleTheme s)).theme = s.theme ∧
    (toggleTheme (toggleTheme s)).attr = s.attr := by
  rcases h1 with h1 | h1 <;> simp [toggleTheme, h1, h2]

/-- C5 amended claim evaluated at the concrete state (theme "light",
attribute "light"). -/
theorem claim5_witness :
    (toggleTheme (toggleTheme ⟨"light", some "light", none, false⟩)).theme = "light" ∧
    (toggleTheme (toggleTheme ⟨"light", some "light", none, false⟩)).attr = some "light" :=
  claim5_amended ⟨"light", some "light", none, false⟩ (Or.inl rfl) rfl

/-- C6: after the part_002 holder mounts, its `[theme]` effect stamps the root
attribute from the in-memory value unconditionally, and after any number of
toggle-plus-effect transitions the attribute still equals the in-memory theme;
the ThemeContext.js holder maintains the same invariant after its mount effect
under any number of its toggles. -/
theorem claim6_invariant (s : CtxState) (n m : Nat) :
    (reconcileEffect s).attr = some s.theme ∧
    (mountedStep^[n] (reconcileEffect s)).attr =
      some ((mountedStep^[n] (reconcileEffect s)).theme) ∧
    (toggleThemeCtx^[m] (mountEffectCtx s)).attr =
      some ((toggleThemeCtx^[m] (mountEffectCtx s)).theme) := by
  refine ⟨rfl, ?_, ?_⟩
  · cases n with
    | zero => rfl
    | succ k =>
      rw [Function.iterate_succ_apply']
      rfl
  · cases m with
    | zero => rfl
    | succ k =>
      rw [Function.iterate_succ_apply']
      rfl

/-- C7: the standalone bootstrap file and the script text produced by
getThemeScript compute the same theme for every persisted value and system
preference, and perform the same document effect on every environment. -/
theorem claim7_equiv :
    (∀ stored pd, getThemeScriptTheme stored pd = themeInitializerTheme stored pd) ∧
    (∀ env : BootEnv, getThemeScriptRun env = themeInitializer env) := by
  refine ⟨fun _ _ => rfl, fun env => ?_⟩
  rcases env with ⟨g, pd, r⟩
  cases g <;> cases r <;> rfl

/-- C8: running the bootstrap resolver a second time on the state a first run
produced (or left unchanged, when it threw) changes nothing: the overall page
state after two invocations equals the state after one. -/
theorem claim8_idempotent (env : BootEnv) :
    runThemeInitializer (runThemeInitializer env) = runThemeInitializer env := by
  rcases env with ⟨g, pd, r⟩
  cases g with
  | error e => rfl
  | ok stored =>
    cases r with
    | none => rfl
    | some a => rfl

/-- C9: resolution is by JS truthiness — an empty persisted string behaves
exactly like an absent one, while any other non-empty persisted string is
returned verbatim and stamped by the bootstrap resolver onto the document
root. -/
theorem claim9_truthiness (s : String) (pd : Bool) (h : s ≠ "") :
    themeInitializerTheme (some "") pd = themeInitializerTheme none pd ∧
    themeInitializerTheme (some s) pd = s ∧
    themeInitializer ⟨Except.ok (some s), pd, some none⟩ =
      Except.ok ⟨Except.ok (some s), pd, some (some s)⟩ := by
  refine ⟨rfl, themeInitializerTheme_of_ne_empty s h pd, ?_⟩
  simp [themeInitializer, jsOrStr, h]

/-- C9 evaluated at the concrete invalid persisted value "blue" with a
prefers-light system. -/
theorem claim9_witness :
    themeInitializerTheme (some "") false = themeInitializerTheme none false ∧
    themeInitializerTheme (some "blue") false = "blue" ∧
    themeInitializer ⟨Except.ok (some "blue"), false, some none⟩ =
      Except.ok ⟨Except.ok (some "blue"), false, some (some "blue")⟩ :=
  claim9_truthiness "blue" false (by decide)

/-- C10: the ThemeContext.js mount effect always writes the resolved theme
into the persisted store (even with no toggle ever performed), so after one
mount a persisted preference exists, and because that value is never the empty
string, every subsequent fresh resolution returns it unchanged regardless of
the system preference. -/
theorem claim10_mount_persist (s : CtxState) (pd1 pd2 : Bool) :
    (mountEffectCtx s).store = some (getInitialTheme s) ∧
    (mountEffectCtx s).store ≠ none ∧
    themeInitializerTheme (mountEffectCtx s).store pd1 =
      themeInitializerTheme (mountEffectCtx s).store pd2 ∧
    themeInitializerTheme (mountEffectCtx s).store pd1 = getInitialTheme s := by
  have hne : getInitialTheme s ≠ "" :=
    jsOrStr_ne_empty s.store _ (fallback_ne_empty s.prefersDark)
  have hstore : (mountEffectCtx s).store = some (getInitialTheme s) := rfl
  refine ⟨rfl, by simp [hstore], ?_, ?_⟩
  · rw [hstore, themeInitializerTheme_of_ne_empty _ hne, themeInitializerTheme_of_ne_empty _ hne]
  · rw [hstore, themeInitializerTheme_of_ne_empty _ hne]

end DarkMode
